/-
Verification of the EML parsing core of the kiesraad repository
(src/kiesraad/parse_eml.py) against its natural-language specification.

The Python code is shallowly embedded: xmltodict trees become the `Val`
inductive (mappings with string keys, lists, strings, None); Python dicts
built by the parser become ordered association lists (`Row`); fallible
Python operations return `Except PyErr`, with one error constructor per
Python exception class that the source raises or catches.
-/
import Mathlib

namespace Kiesraad

/-- Python exceptions that occur in parse_eml.py, by class. -/
inductive PyErr where
  | keyError (k : String)
  | typeError
  | valueError
  | nameError
  | indexError
  | attributeError
deriving DecidableEq

/-- A value of the generic document tree produced by xmltodict, plus the
scalars the parser itself introduces (Python ints from int() coercion).
Mappings carry string keys in insertion order, as OrderedDict does. -/
inductive Val where
  | none
  | str (s : String)
  | int (n : Int)
  | dict (fields : List (String × Val))
  | list (items : List Val)

/-- Rows built by the parser are Python dicts; keys can be arbitrary
hashable values (party names fall back to ids, which could be None). -/
abbrev Row := List (Val × Val)

/-- Ordered-dict lookup with string keys. -/
def slookup (k : String) : List (String × Val) → Option Val
  | [] => Option.none
  | p :: rest => if p.1 = k then some p.2 else slookup k rest

/-- Python subscripting v[k] with a string key: dict lookup raising
KeyError on a missing key, TypeError when v is not subscriptable by
strings (str, list, int, None). -/
def Val.getItem : Val → String → Except PyErr Val
  | .dict fs, k =>
      match slookup k fs with
      | some v => .ok v
      | Option.none => .error (.keyError k)
  | _, _ => .error .typeError

/-- Python truthiness of a tree value. -/
def Val.truthy : Val → Bool
  | .none => false
  | .str s => s != ""
  | .int n => n != 0
  | .dict fs => !fs.isEmpty
  | .list l => !l.isEmpty

def Val.isStr : Val → Bool
  | .str _ => true
  | _ => false

def Val.isDict : Val → Bool
  | .dict _ => true
  | _ => false

def Val.isList : Val → Bool
  | .list _ => true
  | _ => false

/-- pandas.isnull on a tree value: only None is null (documents are
dicts, which pandas treats as non-null). -/
def pdIsNull : Val → Bool
  | .none => true
  | _ => false

/-- Python iteration `for x in v`: lists yield items, dicts yield their
keys, strings yield their characters, other values raise TypeError. -/
def pyIter : Val → Except PyErr (List Val)
  | .list l => .ok l
  | .dict fs => .ok (fs.map fun p => .str p.1)
  | .str s => .ok (s.data.map fun c => .str (String.mk [c]))
  | _ => .error .typeError

/-- `k in v.keys()`: .keys() raises AttributeError unless v is a dict. -/
def pyKeysContains (v : Val) (k : String) : Except PyErr Bool :=
  match v with
  | .dict fs => .ok (slookup k fs).isSome
  | _ => .error .attributeError

/-- Substring test on character lists. -/
def hasSubList (needle : List Char) : List Char → Bool
  | [] => needle.isEmpty
  | c :: rest => needle.isPrefixOf (c :: rest) || hasSubList needle rest

/-- Membership test `k in v` for a string k. -/
def pyContains (k : String) : Val → Except PyErr Bool
  | .dict fs => .ok (slookup k fs).isSome
  | .str s => .ok (hasSubList k.data s.data)
  | .list l =>
      .ok (l.any fun v => match v with | .str s => s == k | _ => false)
  | _ => .error .typeError

/-- str.lower(), modelled for the ASCII range the reason codes use. -/
def strLower (s : String) : String := String.mk (s.data.map Char.toLower)

/-- v.lower(): AttributeError unless v is a string. -/
def pyLower : Val → Except PyErr String
  | .str s => .ok (strLower s)
  | _ => .error .attributeError

/-- Characters stripped by str.strip(). -/
def isPyWs (c : Char) : Bool :=
  c = ' ' || c = '\t' || c = '\n' || c = '\r' || c = '\x0b' || c = '\x0c'

/-- str.strip(): remove leading and trailing whitespace. -/
def pyStrip (s : String) : String :=
  String.mk (((s.data.dropWhile isPyWs).reverse.dropWhile isPyWs).reverse)

def natOfDigits : List Char → Option Nat
  | [] => Option.none
  | ds =>
      if ds.all Char.isDigit then
        some (ds.foldl (fun a c => a * 10 + (c.toNat - 48)) 0)
      else Option.none

/-- int(s) on a string: strip whitespace, optional sign, decimal digits
(Python underscore separators are not used by this data). -/
def parsePyInt (s : String) : Option Int :=
  match (pyStrip s).data with
  | '+' :: ds => (natOfDigits ds).map fun n => (n : Int)
  | '-' :: ds => (natOfDigits ds).map fun n => -(n : Int)
  | ds => (natOfDigits ds).map fun n => (n : Int)

/-- int(v): ints pass through, strings are parsed (ValueError on
failure), everything else raises TypeError. -/
def pyInt : Val → Except PyErr Int
  | .int n => .ok n
  | .str s =>
      match parsePyInt s with
      | some n => .ok n
      | Option.none => .error .valueError
  | _ => .error .typeError

/-- Equality of Python dict keys as used by the parser (strings, None,
ints; containers are unhashable and never used as keys here). -/
def vkey (a b : Val) : Bool :=
  match a, b with
  | .str x, .str y => x == y
  | .none, .none => true
  | .int x, .int y => x == y
  | _, _ => false

/-- Lookup in a built row (Python dict get by key). -/
def rget (r : Row) (k : Val) : Option Val :=
  match r with
  | [] => Option.none
  | p :: rest => if vkey p.1 k then some p.2 else rget rest k

/-- Python dict assignment d[k] = v: replace in place when the key is
present (keeping its position), append otherwise. -/
def rset : Row → Val → Val → Row
  | [], k, v => [(k, v)]
  | p :: rest, k, v => if vkey p.1 k then (p.1, v) :: rest else p :: rset rest k v

/-! ## extract_postcode (parse_eml.py lines 50-65)

The source runs `re.findall(r'(.*?)\(postcode\: (.*?)\)', station_name)`
and takes match 0, falling back to `(station_name, None)` on IndexError,
then returns `(name.strip(), postcode)`.  The regex is modelled exactly:
the literal token is "(postcode: ", a lazy `.` group cannot cross a
newline, and the first reported match starts at the first position from
which the token and a following close parenthesis are reachable without
a newline. -/

/-- The literal chars of the regex token `\(postcode\: ` (with its
trailing space). -/
def pcTok : List Char := ['(', 'p', 'o', 's', 't', 'c', 'o', 'd', 'e', ':', ' ']

/-- Characters matched by the lazy group `(.*?)` before `\)`: everything
up to the first close parenthesis, failing if a newline (which `.` does
not match) or the end of input comes first. -/
def closeNoNL : List Char → Option (List Char)
  | [] => Option.none
  | c :: rest =>
      if c = ')' then some []
      else if c = '\n' then Option.none
      else (closeNoNL rest).map (c :: ·)

/-- Scan for the first match of the whole pattern.  `acc` holds (in
reverse) the characters since the last newline, which form group 1 when
the token matches at the current position with a reachable `)`. -/
def reFindPc (acc : List Char) : List Char → Option (List Char × List Char)
  | [] => Option.none
  | c :: rest =>
      if pcTok.isPrefixOf (c :: rest) then
        match closeNoNL ((c :: rest).drop pcTok.length) with
        | some code => some (acc.reverse, code)
        | Option.none => reFindPc (if c = '\n' then [] else c :: acc) rest
      else reFindPc (if c = '\n' then [] else c :: acc) rest

/-- extract_postcode: `re.findall` raises TypeError unless the argument
is a string; only the name half of the returned pair is stripped. -/
def extract_postcode (station_name : Val) : Except PyErr (Val × Val) :=
  match station_name with
  | .str s =>
      match reFindPc [] s.data with
      | some (n, code) => .ok (.str (pyStrip (String.mk n)), .str (String.mk code))
      | Option.none => .ok (.str (pyStrip s), .none)
  | _ => .error .typeError

/-! Specification-side matcher used to state when the pattern matches at
all, independent of the group-building scanner. -/

/-- There is a close parenthesis ahead with no newline before it. -/
def hasCloseNoNL : List Char → Bool
  | [] => false
  | c :: rest =>
      if c = ')' then true
      else if c = '\n' then false
      else hasCloseNoNL rest

/-- The pattern can match starting with its token at this position. -/
def pcGoodAt (s : List Char) : Bool :=
  pcTok.isPrefixOf s && hasCloseNoNL (s.drop pcTok.length)

/-- The pattern matches somewhere in the string. -/
def pcMatches : List Char → Bool
  | [] => false
  | c :: rest => pcGoodAt (c :: rest) || pcMatches rest

/-! ## parse_election_data (parse_eml.py lines 68-210) -/

/-- Run y when x raised KeyError; pass every other outcome through
(Python `try: x except KeyError: y`). -/
def orKey (x y : Except PyErr Val) : Except PyErr Val :=
  match x with
  | .error (.keyError _) => y
  | r => r

/-- `try: x except TypeError: None`. -/
def catchT (x : Except PyErr Val) : Except PyErr Val :=
  match x with
  | .error .typeError => .ok Val.none
  | r => r

/-- `try: x except (TypeError, KeyError): None`. -/
def catchTK (x : Except PyErr Val) : Except PyErr Val :=
  match x with
  | .error .typeError => .ok Val.none
  | .error (.keyError _) => .ok Val.none
  | r => r

/-- Lines 88-106: resolve the kr:ElectionDomain field of the election
identifier to the pair (election_domain_id, election_domain_name). -/
def resolveDomain (election_identifier : Val) : Except PyErr (Val × Val) := do
  let election_domain ← orKey (election_identifier.getItem "kr:ElectionDomain") (.ok Val.none)
  if election_domain.truthy && election_domain.isStr then
    .ok (Val.none, election_domain)
  else if election_domain.truthy && election_domain.isDict then do
    let domain_id ← orKey (election_domain.getItem "@Id") (.ok Val.none)
    let domain_name ← orKey (election_domain.getItem "#text") (.ok Val.none)
    .ok (domain_id, domain_name)
  else
    .ok (Val.none, Val.none)

/-- Lines 162-166 and 168-172: flatten one reason breakdown into
dynamically named columns `pre + reason.lower()` on the item. -/
def addReasonCols (pre : String) (item : Row) : List Val → Except PyErr Row
  | [] => .ok item
  | rejected :: rest => do
      let rc ← rejected.getItem "@ReasonCode"
      let key ← pyLower rc
      let value ← rejected.getItem "#text"
      addReasonCols pre (rset item (.str (pre ++ key)) value) rest

/-- Line 188-199: the keys copied from the item into a candidate row. -/
def keepKeys : List String :=
  ["election_id", "election_name", "election_domain_name", "election_domain_id",
   "election_date", "contest_name", "managing_authority", "station_id",
   "station_name", "postcode"]

/-- Line 200: `{k: item[k] for k in keep}`. -/
def buildKeep (item : Row) : List String → Except PyErr Row
  | [] => .ok []
  | k :: rest => do
      let v ← match rget item (.str k) with
        | some v => Except.ok v
        | Option.none => Except.error (PyErr.keyError k)
      let r ← buildKeep item rest
      .ok ((Val.str k, v) :: r)

/-- Lines 179-208: the selection loop of one reporting unit.  The party
loop variables persist across iterations (and, via the caller, across
reporting units), modelled by the `pb` state: `Option.none` means
party_name/party_id are still unbound and reading them raises NameError.
Returns the final (pb, row_aggregate, rows_per_candidate). -/
def procSels (per_candidate : Bool) (item : Row) :
    List Val → Option (Val × Val) → Row → List Row →
    Except PyErr (Option (Val × Val) × Row × List Row)
  | [], pb, row_aggregate, cands => .ok (pb, row_aggregate, cands)
  | result :: rest, pb, row_aggregate, cands => do
      let hasAff ← pyKeysContains result "AffiliationIdentifier"
      if hasAff then do
        let aff1 ← result.getItem "AffiliationIdentifier"
        let party_name ← aff1.getItem "RegisteredName"
        let aff2 ← result.getItem "AffiliationIdentifier"
        let party_id ← aff2.getItem "@Id"
        let party_name := if pdIsNull party_name then party_id else party_name
        let vv ← result.getItem "ValidVotes"
        let votes ← pyInt vv
        procSels per_candidate item rest (some (party_name, party_id))
          (rset row_aggregate party_name (.int votes)) cands
      else if per_candidate then do
        let row_cand ← buildKeep item keepKeys
        match pb with
        | Option.none => Except.error PyErr.nameError
        | some (party_name, party_id) => do
            let row_cand := rset row_cand (.str "party_name") party_name
            let row_cand := rset row_cand (.str "party_id") party_id
            let cnd ← result.getItem "Candidate"
            let ci ← cnd.getItem "CandidateIdentifier"
            let candidate_id ← ci.getItem "@Id"
            let row_cand := rset row_cand (.str "candidate_identifier") candidate_id
            let vv ← result.getItem "ValidVotes"
            let row_cand := rset row_cand (.str "votes") vv
            procSels per_candidate item rest pb row_aggregate (cands ++ [row_cand])
      else
        procSels per_candidate item rest pb row_aggregate cands

/-- Lines 140-148: the identity fields shared by every row of a
document, in the order of the dict literal. -/
def identityItem (election_id election_name election_domain_id election_domain_name
    election_date contest_name managing_authority : Val) : Row :=
  [(.str "election_id", election_id),
   (.str "election_name", election_name),
   (.str "election_domain_id", election_domain_id),
   (.str "election_domain_name", election_domain_name),
   (.str "election_date", election_date),
   (.str "contest_name", contest_name),
   (.str "managing_authority", managing_authority)]

/-- Lines 137-209: process one reporting unit.  The bare `print` of a
string station (line 139) is a no-op in this model; note that nothing
skips such a station.  Returns (pb, row_aggregate, rows_per_candidate). -/
def procStation (per_candidate : Bool) (idrow : Row) (station : Val)
    (pb : Option (Val × Val)) (cands : List Row) :
    Except PyErr (Option (Val × Val) × Row × List Row) := do
  let item := idrow
  let station_id ← catchT (do
      let rid ← station.getItem "ReportingUnitIdentifier"
      rid.getItem "@Id")
  let item := rset item (.str "station_id") station_id
  let station_name ← catchT (do
      let rid ← station.getItem "ReportingUnitIdentifier"
      rid.getItem "#text")
  let np ← extract_postcode station_name
  let item := rset item (.str "station_name") np.1
  let item := rset item (.str "postcode") np.2
  let cast ← station.getItem "Cast"
  let item := rset item (.str "cast") cast
  let tc ← station.getItem "TotalCounted"
  let item := rset item (.str "total_counted") tc
  let rej ← station.getItem "RejectedVotes"
  let rejList ← pyIter rej
  let item ← addReasonCols "rejected_" item rejList
  let hasUnc ← pyContains "UncountedVotes" station
  let item ← if hasUnc then do
      let unc ← station.getItem "UncountedVotes"
      let uncList ← pyIter unc
      addReasonCols "uncounted_" item uncList
    else .ok item
  let resultsV ← match station.getItem "Selection" with
    | .error .typeError => .ok (Val.list [])
    | r => r
  let results ← pyIter resultsV
  procSels per_candidate item results pb item cands

/-- The station loop: appends each finished row_aggregate, threading the
party loop variables through every reporting unit of the document. -/
def procStations (per_candidate : Bool) (idrow : Row) :
    List Val → Option (Val × Val) → List Row → List Row →
    Except PyErr (List Row × List Row)
  | [], _, aggs, cands => .ok (aggs, cands)
  | st :: rest, pb, aggs, cands => do
      let r ← procStation per_candidate idrow st pb cands
      procStations per_candidate idrow rest r.1 (aggs ++ [r.2.1]) r.2.2

/-- Line 135-136: `if not isinstance(stations, list): stations = [stations]`. -/
def asStations : Val → List Val
  | .list l => l
  | v => [v]

/-- What parse_election_data returns: either the bare empty list of line
81 (when the document is null) or the 4-tuple of line 210. -/
inductive PEDResult where
  | emptyList
  | tuple (aggs : List Row) (cands : List Row)
      (contest_name : Val) (managing_authority : Val)

/-- Lines 68-210: parse one vote-count document. -/
def parse_election_data (data : Val) (per_candidate : Bool) :
    Except PyErr PEDResult := do
  if pdIsNull data then .ok .emptyList else do
  let eml ← data.getItem "EML"
  let cnt ← eml.getItem "Count"
  let election ← cnt.getItem "Election"
  let election_identifier ← election.getItem "ElectionIdentifier"
  let election_id ← election_identifier.getItem "@Id"
  let election_name ← election_identifier.getItem "ElectionName"
  let dom ← resolveDomain election_identifier
  let election_date ← election_identifier.getItem "kr:ElectionDate"
  let contests ← election.getItem "Contests"
  let contest ← contests.getItem "Contest"
  let contest_name ← orKey (do
      let ci ← contest.getItem "ContestIdentifier"
      ci.getItem "ContestName") (.ok Val.none)
  let managing_authority ← orKey (do
      let ma ← eml.getItem "ManagingAuthority"
      let ai ← ma.getItem "AuthorityIdentifier"
      ai.getItem "#text") (.ok Val.none)
  let idrow := identityItem election_id election_name dom.1 dom.2
      election_date contest_name managing_authority
  match contest.getItem "ReportingUnitVotes" with
  | .error (.keyError _) =>
      let row0 := idrow ++ [(.str "station_name", Val.none), (.str "station_id", Val.none)]
      .ok (.tuple [row0] [] contest_name managing_authority)
  | .error e => .error e
  | .ok stationsV => do
      let r ← procStations per_candidate idrow (asStations stationsV) Option.none [] []
      .ok (.tuple r.1 r.2 contest_name managing_authority)

/-! ## read_eml and process_files (parse_eml.py lines 9-25 and 213-269) -/

/-- A discovered file: its full path (used by the kieskring filter), its
stem, and its contents — `Option.none` models a byte stream whose
decoding raises UnicodeDecodeError, `some tree` the xmltodict result. -/
structure EmlPath where
  full : String
  stem : String
  contents : Option Val

/-- Lines 9-25: read and parse one file; on UnicodeDecodeError the
function prints the file name and the error and returns None. -/
def read_eml (p : EmlPath) : Val :=
  match p.contents with
  | some v => v
  | Option.none => Val.none

/-- Line 230: `a, b, _, _ = parse_election_data(...)` — unpacking the
empty list returned for a null document raises ValueError. -/
def unpack4 : PEDResult → Except PyErr (List Row × List Row × Val × Val)
  | .emptyList => .error .valueError
  | .tuple a c cn ma => .ok (a, c, cn, ma)

/-- The tabular container: a pandas DataFrame is modelled as its column
order plus its rows. -/
structure Df where
  columns : List Val
  rows : List Row

/-- Accumulate the columns contributed by one row, keeping first-seen
order as pandas does for a list of dicts. -/
def rowCols (cols : List Val) : Row → List Val
  | [] => cols
  | p :: rest => rowCols (if cols.any (fun c => vkey c p.1) then cols else cols ++ [p.1]) rest

/-- pd.DataFrame(rows). -/
def mkDf (rows : List Row) : Df :=
  ⟨rows.foldl rowCols [], rows⟩

/-- Lines 238-265: the canonical first columns of an aggregate table. -/
def firstColsSpec : List String :=
  ["contest_name", "managing_authority", "election_id", "election_name",
   "election_domain_id", "election_domain_name", "election_date",
   "station_name", "station_id", "postcode", "cast", "total_counted",
   "rejected_blanco", "rejected_ongeldig",
   "uncounted_andere verklaring", "uncounted_geen verklaring",
   "uncounted_geldige kiezerspassen", "uncounted_geldige stempassen",
   "uncounted_geldige volmachtbewijzen", "uncounted_kwijtgeraakte stembiljetten",
   "uncounted_meegenomen stembiljetten", "uncounted_meer getelde stembiljetten",
   "uncounted_minder getelde stembiljetten", "uncounted_te veel uitgereikte stembiljetten",
   "uncounted_te weinig uitgereikte stembiljetten", "uncounted_toegelaten kiezers"]

/-- Assignment into the dfs dict of result tables. -/
def dfsSet : List (String × Df) → String → Df → List (String × Df)
  | [], k, v => [(k, v)]
  | p :: rest, k, v => if p.1 = k then (k, v) :: rest else p :: dfsSet rest k v

/-- The per-path body of the process_files loop, lines 227-268. -/
def processFilesGo (per_candidate : Bool) :
    List EmlPath → List (String × Df) → Except PyErr (List (String × Df))
  | [], dfs => .ok dfs
  | path :: rest, dfs => do
      let name := path.stem
      let data := read_eml path
      let ped ← parse_election_data data per_candidate
      let r ← unpack4 ped
      let dfs := if per_candidate then
          dfsSet dfs (name ++ "_per_candidate") (mkDf r.2.1)
        else dfs
      let df := mkDf r.1
      let first_cols := firstColsSpec.filter
          (fun c => df.columns.any (fun k => vkey k (.str c)))
      let columns := (first_cols.map Val.str) ++
          df.columns.filter (fun k => !(first_cols.any (fun c => vkey k (.str c))))
      let dfs := dfsSet dfs (name ++ "_aggregate") ⟨columns, df.rows⟩
      processFilesGo per_candidate rest dfs

/-- Lines 213-269: process a batch of vote-count documents.  A Python
exception raised while processing any document propagates out of the
loop and aborts the whole batch, which the Except value records. -/
def process_files (paths : List EmlPath) (per_candidate : Bool) :
    Except PyErr (List (String × Df)) :=
  let paths := paths.filter
      (fun p => !(hasSubList "kieskring".data (strLower p.full).data))
  processFilesGo per_candidate paths []

/-! ## parse_candidates (parse_eml.py lines 272-390) -/

/-- Lines 329-332: scan the name-block keys for the first one starting
with "ns" and take its third character as the prefix number.  When no
key matches, the loop falls through and `nr` keeps whatever value the
variable had from an earlier candidate — `Option.none` when it was never
assigned. -/
def scanNs (nr : Option Char) : List String → Except PyErr (Option Char)
  | [] => .ok nr
  | k :: rest =>
      if "ns".data.isPrefixOf k.data then
        match k.data[2]? with
        | some c => .ok (some c)
        | Option.none => .error .indexError
      else scanNs nr rest

/-- `'ns{}:Field'.format(nr)`: reading the loop variable raises
NameError when it was never assigned. -/
def fmtNs (nr : Option Char) (field : String) : Except PyErr String :=
  match nr with
  | some c => .ok ("ns" ++ String.mk [c] ++ ":" ++ field)
  | Option.none => .error PyErr.nameError

/-- A Python dict literal: later duplicate keys overwrite earlier ones
in place. -/
def mkRow (l : List (String × Val)) : Row :=
  l.foldl (fun r p => rset r (.str p.1) p.2) []

/-- Lines 322-388: process one candidate entry.  Returns the value of
the `nr` variable afterwards and the roster row, if one is emitted. -/
def procCandidate (ctx : List (String × Val)) (party_name party_id : Val)
    (candidate : Val) (nr0 : Option Char) :
    Except PyErr (Option Char × Option Row) := do
  let identifier ← catchT (do
      let ci ← candidate.getItem "CandidateIdentifier"
      ci.getItem "@Id")
  if !candidate.isDict then .ok (nr0, Option.none)
  else do
    let cfn ← candidate.getItem "CandidateFullName"
    let keys ← match cfn with
      | .dict fs => Except.ok (fs.map (fun p => p.1))
      | _ => Except.error PyErr.attributeError
    let nr ← scanNs nr0 keys
    let first_name ← catchTK (do
        let pn ← cfn.getItem (← fmtNs nr "PersonName")
        pn.getItem (← fmtNs nr "FirstName"))
    let last_name ← catchT (do
        let pn ← cfn.getItem (← fmtNs nr "PersonName")
        pn.getItem (← fmtNs nr "LastName"))
    let initials ← catchT (do
        let pn ← cfn.getItem (← fmtNs nr "PersonName")
        let nl ← pn.getItem (← fmtNs nr "NameLine")
        nl.getItem "#text")
    let name_prefx ← catchTK (do
        let pn ← cfn.getItem (← fmtNs nr "PersonName")
        pn.getItem (← fmtNs nr "NamePrefix"))
    let gender ← catchTK (candidate.getItem "Gender")
    let address ← catchTK (do
        let qa ← candidate.getItem "QualifyingAddress"
        let loc ← qa.getItem (← fmtNs nr "Locality")
        loc.getItem (← fmtNs nr "LocalityName"))
    let row := mkRow (ctx ++
      [("party_name", party_name), ("party_id", party_id),
       ("candidate_identifier", identifier), ("first_name", first_name),
       ("last_name", last_name), ("initials", initials),
       ("prefix", name_prefx), ("gender", gender), ("address", address)])
    .ok (nr, some row)

/-- Lines 322-388: the candidate loop of one party, threading `nr`. -/
def procCands (ctx : List (String × Val)) (party_name party_id : Val) :
    List Val → Option Char → List Row → Except PyErr (Option Char × List Row)
  | [], nr, rows => .ok (nr, rows)
  | c :: rest, nr, rows => do
      let r ← procCandidate ctx party_name party_id c nr
      match r.2 with
      | some row => procCands ctx party_name party_id rest r.1 (rows ++ [row])
      | Option.none => procCands ctx party_name party_id rest r.1 rows

/-- Lines 318-388: the party loop. -/
def procParties (ctx : List (String × Val)) :
    List Val → Option Char → List Row → Except PyErr (Option Char × List Row)
  | [], nr, rows => .ok (nr, rows)
  | party :: rest, nr, rows => do
      let ai1 ← party.getItem "AffiliationIdentifier"
      let party_name ← ai1.getItem "RegisteredName"
      let ai2 ← party.getItem "AffiliationIdentifier"
      let party_id ← ai2.getItem "@Id"
      let pcands ← party.getItem "Candidate"
      let clist ← pyIter pcands
      let r ← procCands ctx party_name party_id clist nr rows
      procParties ctx rest r.1 r.2

/-- Lines 272-390: parse one candidate-list document, appending roster
rows to the caller's accumulator. -/
def parse_candidates (data : Val) (rows : List Row) : Except PyErr (List Row) := do
  let eml ← data.getItem "EML"
  let _issue_date ← eml.getItem "IssueDate"
  let cl ← eml.getItem "CandidateList"
  let election ← cl.getItem "Election"
  let election_identifier ← election.getItem "ElectionIdentifier"
  let election_id ← election_identifier.getItem "@Id"
  let _election_name0 ← election_identifier.getItem "ElectionName"
  let election_date ← orKey (election_identifier.getItem "ns6:ElectionDate")
      (election_identifier.getItem "kr:ElectionDate")
  let nomination_date ← orKey (election_identifier.getItem "ns6:NominationDate")
      (election_identifier.getItem "kr:NominationDate")
  let election_domain_id ← orKey (do
      let d ← election_identifier.getItem "ns6:ElectionDomain"
      d.getItem "@Id") (do
      let d ← election_identifier.getItem "kr:ElectionDomain"
      d.getItem "@Id")
  let election_domain_name ← orKey (do
      let d ← election_identifier.getItem "ns6:ElectionDomain"
      d.getItem "#text") (do
      let d ← election_identifier.getItem "kr:ElectionDomain"
      d.getItem "#text")
  let contest_name ← orKey (do
      let c ← election.getItem "Contest"
      let ci ← c.getItem "ContestIdentifier"
      ci.getItem "ContestName") (.ok Val.none)
  let election_name ← orKey (do
      let ei ← election.getItem "ElectionIdentifier"
      ei.getItem "ElectionName") (.ok Val.none)
  let contest ← election.getItem "Contest"
  let parties ← contest.getItem "Affiliation"
  let plist ← pyIter parties
  let ctx := [("election_identifier", election_identifier),
    ("election_id", election_id), ("election_name", election_name),
    ("election_date", election_date), ("nomination_date", nomination_date),
    ("election_domain_id", election_domain_id),
    ("election_domain_name", election_domain_name),
    ("contest_name", contest_name), ("election_name", election_name)]
  let r ← procParties ctx plist Option.none rows
  .ok r.2

/-- Lines 393-408: fold parse_candidates over the candidate-list files,
skipping null (undecodable) documents. -/
def createCandidateGo : List EmlPath → List Row → Except PyErr (List Row)
  | [], rows => .ok rows
  | p :: rest, rows => do
      let data := read_eml p
      let rows ← if !(pdIsNull data) then parse_candidates data rows else .ok rows
      createCandidateGo rest rows

/-- Lines 393-408: create_candidate_list. -/
def create_candidate_list (paths : List EmlPath) : Except PyErr Df := do
  let rows ← createCandidateGo paths []
  .ok (mkDf rows)

/-! ## Sample documents used by the concrete theorems -/

/-- An ElectionIdentifier block of a vote-count document. -/
def sampleIdentifier : Val := .dict
  [("@Id", .str "GR2022"), ("ElectionName", .str "Gemeenteraad 2022"),
   ("kr:ElectionDomain", .dict [("@Id", .str "0363"), ("#text", .str "Amsterdam")]),
   ("kr:ElectionDate", .str "2022-03-16")]

/-- Wrap a Contest block into a full vote-count document. -/
def mkCountDoc (contest : Val) : Val :=
  .dict [("EML", .dict
    [("Count", .dict [("Election", .dict
       [("ElectionIdentifier", sampleIdentifier),
        ("Contests", .dict [("Contest", contest)])])])])]

/-- A Contest block with the given ReportingUnitVotes value. -/
def mkContest (stations : Val) : Val := .dict
  [("ContestIdentifier", .dict [("ContestName", .str "Amsterdam")]),
   ("ReportingUnitVotes", stations)]

/-- A Contest block with no per-station breakdown at all. -/
def contestNoStations : Val := .dict
  [("ContestIdentifier", .dict [("ContestName", .str "Amsterdam")])]

/-- A minimal well-formed reporting unit with the given identifier
value and no selections. -/
def mkStation (rid : Val) : Val := .dict
  [("ReportingUnitIdentifier", rid),
   ("Cast", .str "100"), ("TotalCounted", .str "98"),
   ("RejectedVotes", .list []), ("Selection", .list [])]

/-- A full reporting unit: identifier with id and name, turnout, one
rejected and one uncounted reason, a party selection and a candidate
selection. -/
def stationOK : Val := .dict
  [("ReportingUnitIdentifier", .dict
      [("@Id", .str "0363::SB1"), ("#text", .str "Stadhuis (postcode: 1234 AB)")]),
   ("Cast", .str "100"), ("TotalCounted", .str "98"),
   ("RejectedVotes", .list
      [.dict [("@ReasonCode", .str "Ongeldig"), ("#text", .str "2")]]),
   ("UncountedVotes", .list
      [.dict [("@ReasonCode", .str "Geen verklaring"), ("#text", .str "1")]]),
   ("Selection", .list
      [.dict [("AffiliationIdentifier", .dict
                 [("@Id", .str "1"), ("RegisteredName", .str "PartyA")]),
              ("ValidVotes", .str "50")],
       .dict [("Candidate", .dict [("CandidateIdentifier", .dict [("@Id", .str "1")])]),
              ("ValidVotes", .str "30")]])]

/-- An ElectionIdentifier block of a candidate-list document, using the
kr: prefix family. -/
def candIdentifier : Val := .dict
  [("@Id", .str "GR2022"), ("ElectionName", .str "Gemeenteraad 2022"),
   ("kr:ElectionDate", .str "2022-03-16"), ("kr:NominationDate", .str "2022-01-31"),
   ("kr:ElectionDomain", .dict [("@Id", .str "0363"), ("#text", .str "Amsterdam")])]

/-- Wrap an Affiliation value into a full candidate-list document. -/
def mkCandDoc (parties : Val) : Val :=
  .dict [("EML", .dict
    [("IssueDate", .str "2022-02-04"),
     ("CandidateList", .dict [("Election", .dict
        [("ElectionIdentifier", candIdentifier),
         ("Contest", .dict
            [("ContestIdentifier", .dict [("ContestName", .str "Amsterdam")]),
             ("Affiliation", parties)])])])])]

/-- A party with its candidate list. -/
def mkParty (pid pname : String) (cands : List Val) : Val := .dict
  [("AffiliationIdentifier", .dict
      [("@Id", .str pid), ("RegisteredName", .str pname)]),
   ("Candidate", .list cands)]

/-- A candidate with every biographical field present, prefix family ns6. -/
def candFull (cid first last : String) : Val := .dict
  [("CandidateIdentifier", .dict [("@Id", .str cid)]),
   ("CandidateFullName", .dict
      [("ns6:PersonName", .dict
         [("ns6:NameLine", .dict [("@NameType", .str "Initials"), ("#text", .str "J.")]),
          ("ns6:FirstName", .str first),
          ("ns6:NamePrefix", .str "van"),
          ("ns6:LastName", .str last)])]),
   ("Gender", .str "male"),
   ("QualifyingAddress", .dict
      [("ns6:Locality", .dict [("ns6:LocalityName", .str "Amsterdam")])])]

/-- Like candFull but with no Gender key. -/
def candNoGender (cid first last : String) : Val := .dict
  [("CandidateIdentifier", .dict [("@Id", .str cid)]),
   ("CandidateFullName", .dict
      [("ns6:PersonName", .dict
         [("ns6:NameLine", .dict [("@NameType", .str "Initials"), ("#text", .str "J.")]),
          ("ns6:FirstName", .str first),
          ("ns6:NamePrefix", .str "van"),
          ("ns6:LastName", .str last)])]),
   ("QualifyingAddress", .dict
      [("ns6:Locality", .dict [("ns6:LocalityName", .str "Amsterdam")])])]

/-- A candidate whose PersonName block has no LastName key. -/
def candNoLastName (cid first : String) : Val := .dict
  [("CandidateIdentifier", .dict [("@Id", .str cid)]),
   ("CandidateFullName", .dict
      [("ns6:PersonName", .dict [("ns6:FirstName", .str first)])]),
   ("Gender", .str "male")]

/-- A candidate whose name-block keys carry no ns prefix at all. -/
def candNoNsKey (cid : String) : Val := .dict
  [("CandidateIdentifier", .dict [("@Id", .str cid)]),
   ("CandidateFullName", .dict
      [("PersonName", .dict [("FirstName", .str "Jan")])]),
   ("Gender", .str "male")]

/-- An item carrying every key the candidate-row comprehension copies,
in keep order. -/
def keepItem : Row :=
  [(.str "election_id", .str "E"), (.str "election_name", .str "N"),
   (.str "election_domain_name", .str "D"), (.str "election_domain_id", .str "DI"),
   (.str "election_date", .str "2022-03-16"), (.str "contest_name", .str "C"),
   (.str "managing_authority", .str "M"), (.str "station_id", .str "S"),
   (.str "station_name", .str "SN"), (.str "postcode", .str "P")]

/-- A selection item carrying a party-level total. -/
def partySel : Val := .dict
  [("AffiliationIdentifier", .dict
      [("@Id", .str "1"), ("RegisteredName", .str "PartyA")]),
   ("ValidVotes", .str "50")]

/-- A selection item carrying a candidate breakdown (no party
identifier of its own). -/
def candSel : Val := .dict
  [("Candidate", .dict [("CandidateIdentifier", .dict [("@Id", .str "7")])]),
   ("ValidVotes", .str "30")]

/-! ## Specification-side helper definitions -/

/-- A selection item that carries a party identifier at its own level
(the shape the source's if-branch tests for). -/
def selHasAff : Val → Bool
  | .dict fs => (slookup "AffiliationIdentifier" fs).isSome
  | _ => false

/-- The string keys of a row that start with the given prefix. -/
def prefKeys (pre : String) : Row → List String
  | [] => []
  | p :: rest =>
      match p.1 with
      | .str s =>
          if pre.data.isPrefixOf s.data then s :: prefKeys pre rest
          else prefKeys pre rest
      | _ => prefKeys pre rest

/-- Strip a column-name prefix, recovering the reason code. -/
def dropPre (pre k : String) : String := String.mk (k.data.drop pre.length)

/-- A well-formed reason entry: a mapping with a string @ReasonCode and
a #text value. -/
def reasonOk : Val → Bool
  | .dict fs =>
      (match slookup "@ReasonCode" fs with
       | some (.str _) => true
       | _ => false) &&
      (slookup "#text" fs).isSome
  | _ => false

/-- The reason code of a well-formed reason entry. -/
def reasonCode : Val → String
  | .dict fs =>
      match slookup "@ReasonCode" fs with
      | some (.str s) => s
      | _ => ""
  | _ => ""

/-- Whether a Python call completed without raising. -/
def exceptIsOk {α : Type} : Except PyErr α → Bool
  | .ok _ => true
  | .error _ => false

/-! ## General lemmas about the embedding -/

@[simp] theorem ok_bind {α β : Type} (a : α) (f : α → Except PyErr β) :
    (Except.ok a >>= f) = f a := rfl

@[simp] theorem error_bind {α β : Type} (e : PyErr) (f : α → Except PyErr β) :
    ((Except.error e : Except PyErr α) >>= f) = .error e := rfl

theorem exceptBind_ok {α β : Type} {x : Except PyErr α} {f : α → Except PyErr β} {b : β}
    (h : (x >>= f) = .ok b) : ∃ a, x = .ok a ∧ f a = .ok b := by
  cases x with
  | ok a => exact ⟨a, rfl, h⟩
  | error e => exact absurd h (by intro hc; cases hc)

theorem getItem_dict (fs : List (String × Val)) (k : String) :
    Val.getItem (.dict fs) k =
      match slookup k fs with
      | some v => .ok v
      | Option.none => .error (.keyError k) := rfl

/-! ## Claim theorems -/

/-- Claim C1 (code_bug evidence).  The claim says a vote-count document
whose bytes cannot be decoded is skipped and the rest of the batch is
still processed.  In the code, read_eml returns None for such a
document, parse_election_data then returns the bare empty list of line
81, and the 4-way tuple unpacking at line 230 of process_files raises
ValueError, aborting the whole batch: a batch of one undecodable and
one good document produces no tables at all, while the good document
alone processes fine. -/
theorem c1_decode_failure_halts_batch :
    process_files
      [⟨"data/Telling_bad.xml", "Telling_bad", Option.none⟩,
       ⟨"data/Telling_good.xml", "Telling_good", some (mkCountDoc contestNoStations)⟩]
      false = .error .valueError ∧
    exceptIsOk (process_files
      [⟨"data/Telling_good.xml", "Telling_good", some (mkCountDoc contestNoStations)⟩]
      false) = true :=
  ⟨rfl, rfl⟩

/-- Claim C2 (code_bug evidence).  The claim says a reporting-unit
entry that is a bare string is logged and skipped, with the document
still parsed.  In the code the string is only printed (line 139); the
loop body then continues, both identifier subscripts degrade to None
via the TypeError handlers, and extract_postcode(None) raises an
uncaught TypeError inside re.findall, aborting the whole document.  The
same document without the string entry parses fine. -/
theorem c2_string_station_aborts_document :
    parse_election_data
      (mkCountDoc (mkContest (.list [.str "geen uitslag", stationOK]))) false
      = .error .typeError ∧
    exceptIsOk (parse_election_data
      (mkCountDoc (mkContest (.list [stationOK]))) false) = true :=
  ⟨rfl, rfl⟩

/-- Claim C5 (code_bug evidence).  The claim says every biographical
field is independently optional.  Absence of the Gender key indeed
yields a row with gender None and all other fields populated (scenario
C), but absence of the LastName key inside the PersonName block raises
an uncaught KeyError (line 340 catches TypeError only), aborting the
whole document instead of emitting the row with last_name None. -/
theorem c5_missing_lastname_key_aborts :
    parse_candidates
      (mkCandDoc (.list [mkParty "1" "PartyA"
        [candFull "1" "Jan" "Jansen", candNoLastName "2" "Piet"]])) []
      = .error (.keyError "ns6:LastName") ∧
    (∃ r1 r2, parse_candidates
      (mkCandDoc (.list [mkParty "1" "PartyA"
        [candFull "1" "Jan" "Jansen", candNoGender "2" "Piet" "Peters"]])) []
      = .ok [r1, r2] ∧
      rget r2 (.str "gender") = some Val.none ∧
      rget r2 (.str "first_name") = some (.str "Piet") ∧
      rget r2 (.str "last_name") = some (.str "Peters") ∧
      rget r2 (.str "initials") = some (.str "J.") ∧
      rget r2 (.str "prefix") = some (.str "van") ∧
      rget r2 (.str "address") = some (.str "Amsterdam") ∧
      rget r2 (.str "candidate_identifier") = some (.str "2")) :=
  ⟨rfl, ⟨_, _, rfl, rfl, rfl, rfl, rfl, rfl, rfl, rfl⟩⟩

/-- Claim C6 (code_bug evidence).  The claim says station_id and
station_name are each individually optional.  In the code, a
ReportingUnitIdentifier mapping that lacks @Id raises an uncaught
KeyError (lines 149-152 catch TypeError only); a bare-string identifier
makes both fields None but then extract_postcode(None) raises
TypeError; only a station carrying both attributes yields a row. -/
theorem c6_station_fields_not_individually_optional :
    parse_election_data
      (mkCountDoc (mkContest (.list [mkStation (.dict [("#text", .str "Dorpshuis")])])))
      false = .error (.keyError "@Id") ∧
    parse_election_data
      (mkCountDoc (mkContest (.list [mkStation (.str "Dorpshuis")])))
      false = .error .typeError ∧
    exceptIsOk (parse_election_data
      (mkCountDoc (mkContest (.list
        [mkStation (.dict [("@Id", .str "1"), ("#text", .str "Dorpshuis")])])))
      false) = true :=
  ⟨rfl, rfl, rfl⟩

/-- Claim C7 (code_bug evidence).  The claim says that when prefix
discovery finds no matching key, all prefixed fields resolve to None.
In the code the for/break scan leaves `nr` unbound, so the first field
lookup raises NameError when no candidate bound it before, and when a
previous candidate left a stale prefix the LastName lookup raises an
uncaught KeyError; either way the document aborts. -/
theorem c7_no_ns_key_aborts_document :
    parse_candidates
      (mkCandDoc (.list [mkParty "1" "PartyA" [candNoNsKey "1"]])) []
      = .error .nameError ∧
    parse_candidates
      (mkCandDoc (.list [mkParty "1" "PartyA"
        [candFull "2" "Jan" "Jansen", candNoNsKey "1"]])) []
      = .error (.keyError "ns6:PersonName") :=
  ⟨rfl, rfl⟩

/-- Claim C3 (counterexample).  The claim says a bare-string election
domain always resolves election_domain_name to that string; but the
empty string is falsy, so the code's `if election_domain and ...` test
sends it to the final else and both fields become None. -/
theorem c3_empty_string_domain_counterexample :
    resolveDomain (.dict [("@Id", .str "X"), ("kr:ElectionDomain", .str "")])
      = .ok (Val.none, Val.none) ∧ Val.none ≠ Val.str "" :=
  ⟨rfl, by intro h; cases h⟩

/-- Claim C8 (counterexample).  The claim says a non-matching label is
returned unchanged and an absent (None) label yields (None, None); the
code strips the non-matching label and raises TypeError on None. -/
theorem c8_decompose_counterexample :
    extract_postcode (.str " Stadhuis ") = .ok (.str "Stadhuis", Val.none) ∧
    Val.str "Stadhuis" ≠ Val.str " Stadhuis " ∧
    extract_postcode Val.none = .error .typeError :=
  ⟨rfl, by intro h; injection h with h2; exact absurd h2 (by decide), rfl⟩

/-- Claim C3 (amended).  The election-domain field resolves by shape:
absent (or present with a falsy value: None, the empty string, the
empty mapping) makes both output fields None; a nonempty bare string
becomes election_domain_name with election_domain_id None; a nonempty
mapping yields its @Id and #text attributes, each independently
defaulting to None when absent. -/
theorem c3_domain_resolution (fs ds : List (String × Val)) (s : String) :
    (slookup "kr:ElectionDomain" fs = Option.none →
      resolveDomain (.dict fs) = .ok (Val.none, Val.none)) ∧
    (slookup "kr:ElectionDomain" fs = some (.str s) → s ≠ "" →
      resolveDomain (.dict fs) = .ok (Val.none, .str s)) ∧
    (slookup "kr:ElectionDomain" fs = some (.str "") →
      resolveDomain (.dict fs) = .ok (Val.none, Val.none)) ∧
    (slookup "kr:ElectionDomain" fs = some (.dict ds) → ds ≠ [] →
      resolveDomain (.dict fs) = .ok
        ((slookup "@Id" ds).getD Val.none, (slookup "#text" ds).getD Val.none)) ∧
    (slookup "kr:ElectionDomain" fs = some Val.none →
      resolveDomain (.dict fs) = .ok (Val.none, Val.none)) ∧
    (slookup "kr:ElectionDomain" fs = some (.dict []) →
      resolveDomain (.dict fs) = .ok (Val.none, Val.none)) := by
  refine ⟨?_, ?_, ?_, ?_, ?_, ?_⟩
  · intro h
    simp [resolveDomain, Val.getItem, orKey, h, Val.truthy, Val.isStr, Val.isDict]
  · intro h hne
    simp [resolveDomain, Val.getItem, orKey, h, Val.truthy, Val.isStr, Val.isDict,
      bne_iff_ne, hne]
  · intro h
    simp [resolveDomain, Val.getItem, orKey, h, Val.truthy, Val.isStr, Val.isDict]
  · intro h hne
    have hemp : ds.isEmpty = false := by
      cases ds with
      | nil => exact absurd rfl hne
      | cons p rest => rfl
    simp only [resolveDomain, Val.getItem, orKey, h, Val.truthy, Val.isStr, Val.isDict,
      hemp, ok_bind, Bool.not_false, Bool.and_true, Bool.and_false, Bool.true_and,
      Bool.false_and, if_false, if_true, Bool.and_self]
    cases hid : slookup "@Id" ds with
    | none => cases hnm : slookup "#text" ds with
      | none => simp [hid, hnm]
      | some v => simp [hid, hnm]
    | some v => cases hnm : slookup "#text" ds with
      | none => simp [hid, hnm]
      | some w => simp [hid, hnm]
  · intro h
    simp [resolveDomain, Val.getItem, orKey, h, Val.truthy, Val.isStr, Val.isDict]
  · intro h
    simp [resolveDomain, Val.getItem, orKey, h, Val.truthy, Val.isStr, Val.isDict]

/-- Witness for c3_domain_resolution at concrete identifier blocks for
each of the six shapes. -/
theorem c3_domain_resolution_witness :
    resolveDomain (.dict [("@Id", Val.str "1")]) = .ok (Val.none, Val.none) ∧
    resolveDomain (.dict [("kr:ElectionDomain", Val.str "Utrecht")])
      = .ok (Val.none, Val.str "Utrecht") ∧
    resolveDomain (.dict [("kr:ElectionDomain", Val.str "")])
      = .ok (Val.none, Val.none) ∧
    resolveDomain (.dict [("kr:ElectionDomain",
        Val.dict [("@Id", Val.str "24"), ("#text", Val.str "Zuid-Holland")])])
      = .ok (Val.str "24", Val.str "Zuid-Holland") ∧
    resolveDomain (.dict [("kr:ElectionDomain", Val.none)])
      = .ok (Val.none, Val.none) ∧
    resolveDomain (.dict [("kr:ElectionDomain", Val.dict [])])
      = .ok (Val.none, Val.none) :=
  ⟨(c3_domain_resolution [("@Id", Val.str "1")] [] "x").1 rfl,
   (c3_domain_resolution [("kr:ElectionDomain", Val.str "Utrecht")] [] "Utrecht").2.1
     rfl (by decide),
   (c3_domain_resolution [("kr:ElectionDomain", Val.str "")] [] "x").2.2.1 rfl,
   (c3_domain_resolution [("kr:ElectionDomain",
       Val.dict [("@Id", Val.str "24"), ("#text", Val.str "Zuid-Holland")])]
       [("@Id", Val.str "24"), ("#text", Val.str "Zuid-Holland")] "x").2.2.2.1 rfl
     (List.cons_ne_nil _ _),
   (c3_domain_resolution [("kr:ElectionDomain", Val.none)] [] "x").2.2.2.2.1 rfl,
   (c3_domain_resolution [("kr:ElectionDomain", Val.dict [])] [] "x").2.2.2.2.2 rfl⟩

/-- Claim C4 (confirmed).  Candidate rows are only ever emitted by the
elif branch, which handles selection items without a party identifier
(the candidate-breakdown shape): a selection list whose items all carry
an AffiliationIdentifier — party-level totals only — adds no row to
rows_per_candidate, even with per-candidate emission requested, from
any starting state of the loop. -/
theorem c4_party_only_no_candidate_rows (sels : List Val) (item : Row) :
    ∀ (pb : Option (Val × Val)) (ra : Row) (cands : List Row)
      (out : Option (Val × Val) × Row × List Row),
      sels.all selHasAff = true →
      procSels true item sels pb ra cands = .ok out →
      out.2.2 = cands := by
  induction sels with
  | nil =>
      intro pb ra cands out hall hok
      simp [procSels] at hok
      rw [← hok]
  | cons r rest ih =>
      intro pb ra cands out hall hok
      rw [List.all_cons, Bool.and_eq_true] at hall
      obtain ⟨h1, h2⟩ := hall
      cases r with
      | dict fs =>
          have haff : (slookup "AffiliationIdentifier" fs).isSome = true := by
            simpa [selHasAff] using h1
          simp only [procSels, pyKeysContains, ok_bind, haff, if_true] at hok
          obtain ⟨aff1, _, hok⟩ := exceptBind_ok hok
          obtain ⟨pn0, _, hok⟩ := exceptBind_ok hok
          obtain ⟨aff2, _, hok⟩ := exceptBind_ok hok
          obtain ⟨pid, _, hok⟩ := exceptBind_ok hok
          obtain ⟨vv, _, hok⟩ := exceptBind_ok hok
          obtain ⟨votes, _, hok⟩ := exceptBind_ok hok
          exact ih _ _ _ _ h2 hok
      | none => simp [selHasAff] at h1
      | str s => simp [selHasAff] at h1
      | int n => simp [selHasAff] at h1
      | list l => simp [selHasAff] at h1

/-- Witness for c4_party_only_no_candidate_rows: a single party-total
selection emits no candidate row. -/
theorem c4_party_only_no_candidate_rows_witness :
    procSels true []
      [Val.dict [("AffiliationIdentifier",
          Val.dict [("@Id", Val.str "1"), ("RegisteredName", Val.str "PartyA")]),
        ("ValidVotes", Val.str "50")]]
      Option.none [] []
      = .ok (some (Val.str "PartyA", Val.str "1"),
          [(Val.str "PartyA", Val.int 50)], ([] : List Row)) ∧
    ((some (Val.str "PartyA", Val.str "1"),
        [(Val.str "PartyA", Val.int 50)], ([] : List Row)) :
      Option (Val × Val) × Row × List Row).2.2 = ([] : List Row) :=
  ⟨rfl,
   c4_party_only_no_candidate_rows
     [Val.dict [("AffiliationIdentifier",
         Val.dict [("@Id", Val.str "1"), ("RegisteredName", Val.str "PartyA")]),
       ("ValidVotes", Val.str "50")]]
     [] Option.none [] []
     (some (Val.str "PartyA", Val.str "1"), [(Val.str "PartyA", Val.int 50)], [])
     rfl rfl⟩

/-- Claim C10 (confirmed).  A candidate row's party_name/party_id come
from the loop variables, not from the candidate selection item: (1) a
selection carrying a party identifier rebinds the variables to its own
name/id, whatever they held before; (2) a candidate selection under a
binding (pn, pid) emits a row whose party fields are exactly pn and
pid, a state the caller threads across reporting units; (3) a candidate
selection reached while the variables were never bound raises
NameError. -/
theorem c10_candidate_rows_use_stale_party_binding :
    (∀ (fs : List (String × Val)) (rest : List Val) (per_candidate : Bool)
       (item ra : Row) (cands : List Row) (pb : Option (Val × Val))
       (aff pn pid vv : Val) (v : Int),
      slookup "AffiliationIdentifier" fs = some aff →
      aff.getItem "RegisteredName" = .ok pn →
      aff.getItem "@Id" = .ok pid →
      pdIsNull pn = false →
      slookup "ValidVotes" fs = some vv →
      pyInt vv = .ok v →
      procSels per_candidate item (.dict fs :: rest) pb ra cands
        = procSels per_candidate item rest (some (pn, pid)) (rset ra pn (.int v)) cands) ∧
    (∀ (fs : List (String × Val)) (rest : List Val) (item ra : Row)
       (cands : List Row) (pn pid : Val) (kr : Row) (cnd ci cid vv : Val),
      slookup "AffiliationIdentifier" fs = Option.none →
      buildKeep item keepKeys = .ok kr →
      slookup "Candidate" fs = some cnd →
      cnd.getItem "CandidateIdentifier" = .ok ci →
      ci.getItem "@Id" = .ok cid →
      slookup "ValidVotes" fs = some vv →
      procSels true item (.dict fs :: rest) (some (pn, pid)) ra cands
        = procSels true item rest (some (pn, pid)) ra
            (cands ++ [rset (rset (rset (rset kr (.str "party_name") pn)
                (.str "party_id") pid) (.str "candidate_identifier") cid)
                (.str "votes") vv])) ∧
    (∀ (fs : List (String × Val)) (rest : List Val) (item ra : Row)
       (cands : List Row) (kr : Row),
      slookup "AffiliationIdentifier" fs = Option.none →
      buildKeep item keepKeys = .ok kr →
      procSels true item (.dict fs :: rest) Option.none ra cands
        = .error .nameError) := by
  refine ⟨?_, ?_, ?_⟩
  · intro fs rest per_candidate item ra cands pb aff pn pid vv v h1 h2 h3 h4 h5 h6
    simp [procSels, pyKeysContains, getItem_dict, h1, h2, h3, h4, h5, h6]
  · intro fs rest item ra cands pn pid kr cnd ci cid vv h1 h2 h3 h4 h5 h6
    simp [procSels, pyKeysContains, getItem_dict, h1, h2, h3, h4, h5, h6]
  · intro fs rest item ra cands kr h1 h2
    simp [procSels, pyKeysContains, getItem_dict, h1, h2]

/-- Witness for c10_candidate_rows_use_stale_party_binding: the three
behaviours at concrete selection items. -/
theorem c10_candidate_rows_use_stale_party_binding_witness :
    (procSels true keepItem [partySel] Option.none [] []
      = procSels true keepItem [] (some (Val.str "PartyA", Val.str "1"))
          (rset [] (Val.str "PartyA") (Val.int 50)) []) ∧
    (procSels true keepItem [candSel] (some (Val.str "PartyA", Val.str "1")) [] []
      = procSels true keepItem [] (some (Val.str "PartyA", Val.str "1")) []
          ([] ++ [rset (rset (rset (rset keepItem (.str "party_name") (Val.str "PartyA"))
              (.str "party_id") (Val.str "1")) (.str "candidate_identifier") (Val.str "7"))
              (.str "votes") (Val.str "30")])) ∧
    (procSels true keepItem [candSel] Option.none [] [] = .error .nameError) :=
  ⟨c10_candidate_rows_use_stale_party_binding.1
     [("AffiliationIdentifier", Val.dict
         [("@Id", Val.str "1"), ("RegisteredName", Val.str "PartyA")]),
      ("ValidVotes", Val.str "50")]
     [] true keepItem [] [] Option.none
     (Val.dict [("@Id", Val.str "1"), ("RegisteredName", Val.str "PartyA")])
     (Val.str "PartyA") (Val.str "1") (Val.str "50") 50
     rfl rfl rfl rfl rfl rfl,
   c10_candidate_rows_use_stale_party_binding.2.1
     [("Candidate", Val.dict [("CandidateIdentifier", Val.dict [("@Id", Val.str "7")])]),
      ("ValidVotes", Val.str "30")]
     [] keepItem [] [] (Val.str "PartyA") (Val.str "1") keepItem
     (Val.dict [("CandidateIdentifier", Val.dict [("@Id", Val.str "7")])])
     (Val.dict [("@Id", Val.str "7")]) (Val.str "7") (Val.str "30")
     rfl rfl rfl rfl rfl rfl,
   c10_candidate_rows_use_stale_party_binding.2.2
     [("Candidate", Val.dict [("CandidateIdentifier", Val.dict [("@Id", Val.str "7")])]),
      ("ValidVotes", Val.str "30")]
     [] keepItem [] [] keepItem rfl rfl⟩

theorem vkey_str_iff (a : Val) (key : String) : vkey a (.str key) = true ↔ a = .str key := by
  cases a <;> simp [vkey]

theorem isPrefixOf_append_self (l r : List Char) : l.isPrefixOf (l ++ r) = true := by
  simp only [List.isPrefixOf_iff_prefix]
  exact List.prefix_append l r

theorem dropPre_append (pre x : String) : dropPre pre (pre ++ x) = x := by
  cases pre with
  | mk pd =>
    cases x with
    | mk xd =>
      show String.mk (((String.mk (pd ++ xd)).data).drop (String.mk pd).length) = String.mk xd
      simp [String.length, List.drop_left]

theorem prefKeys_rset (pre key : String) (v : Val) (row : Row) (k : String) :
    k ∈ prefKeys pre (rset row (.str key) v) ↔
      k ∈ prefKeys pre row ∨ (pre.data.isPrefixOf key.data = true ∧ k = key) := by
  induction row with
  | nil =>
      by_cases hp : pre.data.isPrefixOf key.data = true
      · simp [rset, prefKeys, hp]
      · simp [rset, prefKeys, hp]
  | cons p rest ih =>
      cases hvk : vkey p.1 (.str key) with
      | true =>
          have hpk : p.1 = .str key := (vkey_str_iff _ _).mp hvk
          have hr : rset (p :: rest) (.str key) v = (p.1, v) :: rest := by
            simp [rset, hvk]
          rw [hr]
          by_cases hp : pre.data.isPrefixOf key.data = true
          · simp [prefKeys, hpk, hp]
            tauto
          · simp [prefKeys, hpk, hp]
      | false =>
          have hr : rset (p :: rest) (.str key) v = p :: rset rest (.str key) v := by
            simp [rset, hvk]
          rw [hr]
          cases hp1 : p.1 with
          | str s =>
              by_cases hps : pre.data.isPrefixOf s.data = true
              · simp [prefKeys, hp1, hps, ih]
                tauto
              · simp [prefKeys, hp1, hps, ih]
          | none => simp [prefKeys, hp1, ih]
          | int n => simp [prefKeys, hp1, ih]
          | dict fs => simp [prefKeys, hp1, ih]
          | list l => simp [prefKeys, hp1, ih]

theorem addReason_keys (pre : String) (reasons : List Val) :
    ∀ item : Row, reasons.all reasonOk = true →
      ∃ item', addReasonCols pre item reasons = .ok item' ∧
        ∀ k, k ∈ prefKeys pre item' ↔
          k ∈ prefKeys pre item ∨ ∃ r ∈ reasons, k = pre ++ strLower (reasonCode r) := by
  induction reasons with
  | nil =>
      intro item _
      exact ⟨item, rfl, by simp [addReasonCols]⟩
  | cons r rest ih =>
      intro item hall
      rw [List.all_cons, Bool.and_eq_true] at hall
      obtain ⟨h1, h2⟩ := hall
      cases r with
      | dict fs =>
          cases hrc : slookup "@ReasonCode" fs with
          | none => simp [reasonOk, hrc] at h1
          | some rcv =>
            cases rcv with
            | str code =>
              cases htx : slookup "#text" fs with
              | none => simp [reasonOk, hrc, htx] at h1
              | some txt =>
                have hstep : addReasonCols pre item (.dict fs :: rest) =
                    addReasonCols pre (rset item (.str (pre ++ strLower code)) txt) rest := by
                  simp [addReasonCols, getItem_dict, hrc, htx, pyLower]
                obtain ⟨item', heq, hiff⟩ :=
                  ih (rset item (.str (pre ++ strLower code)) txt) h2
                refine ⟨item', by rw [hstep, heq], ?_⟩
                intro k
                rw [hiff k, prefKeys_rset]
                have hpk : pre.data.isPrefixOf (pre ++ strLower code).data = true := by
                  cases pre with
                  | mk pd =>
                    cases hsl : strLower code with
                    | mk cd =>
                      show pd.isPrefixOf ((String.mk pd ++ String.mk cd).data) = true
                      exact isPrefixOf_append_self pd cd
                simp only [hpk, true_and, List.mem_cons, reasonCode, hrc]
                constructor
                · rintro ((h | h) | ⟨r', hr', hk⟩)
                  · exact Or.inl h
                  · exact Or.inr ⟨.dict fs, Or.inl rfl, by simp [reasonCode, hrc, h]⟩
                  · exact Or.inr ⟨r', Or.inr hr', hk⟩
                · rintro (h | ⟨r', hr' | hr', hk⟩)
                  · exact Or.inl (Or.inl h)
                  · subst hr'
                    simp [reasonCode, hrc] at hk
                    exact Or.inl (Or.inr hk)
                  · exact Or.inr ⟨r', hr', hk⟩
            | none => simp [reasonOk, hrc] at h1
            | int n => simp [reasonOk, hrc] at h1
            | dict ds => simp [reasonOk, hrc] at h1
            | list l => simp [reasonOk, hrc] at h1
      | none => simp [reasonOk] at h1
      | str s => simp [reasonOk] at h1
      | int n => simp [reasonOk] at h1
      | list l => simp [reasonOk] at h1

/-- Claim C9 (confirmed).  For a reporting-unit breakdown of
well-formed reason entries, flattening emits exactly one
prefix-lowercase-code column per reason code present (starting from an
item with no such columns, as the identity/turnout item is), and
stripping the prefix recovers exactly the lowercased input codes. -/
theorem c9_reason_columns_roundtrip (pre : String) (reasons : List Val) (item : Row)
    (_hpre : pre = "rejected_" ∨ pre = "uncounted_")
    (hall : reasons.all reasonOk = true)
    (hnone : prefKeys pre item = []) :
    ∃ item', addReasonCols pre item reasons = .ok item' ∧
      (∀ k, k ∈ prefKeys pre item' ↔ ∃ r ∈ reasons, k = pre ++ strLower (reasonCode r)) ∧
      (∀ c, c ∈ (prefKeys pre item').map (dropPre pre) ↔
        ∃ r ∈ reasons, c = strLower (reasonCode r)) := by
  obtain ⟨item', heq, hiff⟩ := addReason_keys pre reasons item hall
  refine ⟨item', heq, ?_, ?_⟩
  · intro k
    rw [hiff k, hnone]
    simp
  · intro c
    simp only [List.mem_map]
    constructor
    · rintro ⟨k, hk, hdk⟩
      rw [hiff k, hnone] at hk
      simp at hk
      obtain ⟨r, hr, hkeq⟩ := hk
      exact ⟨r, hr, by rw [← hdk, hkeq, dropPre_append]⟩
    · rintro ⟨r, hr, hceq⟩
      refine ⟨pre ++ strLower (reasonCode r), ?_, ?_⟩
      · rw [hiff _, hnone]
        simp
        exact ⟨r, hr, rfl⟩
      · rw [dropPre_append, hceq]

/-- Witness for c9_reason_columns_roundtrip at a concrete two-reason
breakdown over a concrete item. -/
theorem c9_reason_columns_roundtrip_witness :
    ∃ item', addReasonCols "rejected_" [(Val.str "cast", Val.str "100")]
        [Val.dict [("@ReasonCode", Val.str "Ongeldig"), ("#text", Val.str "2")],
         Val.dict [("@ReasonCode", Val.str "Blanco"), ("#text", Val.str "1")]]
        = .ok item' ∧
      (∀ k, k ∈ prefKeys "rejected_" item' ↔
        ∃ r ∈ [Val.dict [("@ReasonCode", Val.str "Ongeldig"), ("#text", Val.str "2")],
               Val.dict [("@ReasonCode", Val.str "Blanco"), ("#text", Val.str "1")]],
          k = "rejected_" ++ strLower (reasonCode r)) ∧
      (∀ c, c ∈ (prefKeys "rejected_" item').map (dropPre "rejected_") ↔
        ∃ r ∈ [Val.dict [("@ReasonCode", Val.str "Ongeldig"), ("#text", Val.str "2")],
               Val.dict [("@ReasonCode", Val.str "Blanco"), ("#text", Val.str "1")]],
          c = strLower (reasonCode r)) :=
  c9_reason_columns_roundtrip "rejected_"
    [Val.dict [("@ReasonCode", Val.str "Ongeldig"), ("#text", Val.str "2")],
     Val.dict [("@ReasonCode", Val.str "Blanco"), ("#text", Val.str "1")]]
    [(Val.str "cast", Val.str "100")]
    (Or.inl rfl) rfl rfl

theorem closeNoNL_none_iff (l : List Char) :
    closeNoNL l = Option.none ↔ hasCloseNoNL l = false := by
  induction l with
  | nil => simp [closeNoNL, hasCloseNoNL]
  | cons c rest ih =>
      by_cases h1 : c = ')'
      · simp [closeNoNL, hasCloseNoNL, h1]
      · by_cases h2 : c = '\n'
        · simp [closeNoNL, hasCloseNoNL, h1, h2]
        · simp [closeNoNL, hasCloseNoNL, h1, h2, ih]

theorem reFindPc_none_iff (s : List Char) :
    ∀ acc, (reFindPc acc s = Option.none ↔ pcMatches s = false) := by
  induction s with
  | nil => intro acc; simp [reFindPc, pcMatches]
  | cons c rest ih =>
      intro acc
      by_cases hp : pcTok.isPrefixOf (c :: rest) = true
      · cases hcl : closeNoNL ((c :: rest).drop pcTok.length) with
        | some code =>
            have hhc : hasCloseNoNL ((c :: rest).drop pcTok.length) = true := by
              cases hhc0 : hasCloseNoNL ((c :: rest).drop pcTok.length) with
              | true => rfl
              | false =>
                  rw [← closeNoNL_none_iff] at hhc0
                  rw [hhc0] at hcl
                  cases hcl
            simp [reFindPc, hp, hcl, pcMatches, pcGoodAt, hhc]
        | none =>
            have hhc : hasCloseNoNL ((c :: rest).drop pcTok.length) = false :=
              (closeNoNL_none_iff _).mp hcl
            simp [reFindPc, hp, hcl, pcMatches, pcGoodAt, hhc, ih]
      · simp [reFindPc, hp, pcMatches, pcGoodAt, ih]

theorem closeNoNL_clean (c t : List Char) (hc1 : ')' ∉ c) (hc2 : '\n' ∉ c) :
    closeNoNL (c ++ ')' :: t) = some c := by
  induction c with
  | nil => simp [closeNoNL]
  | cons x xs ih =>
      simp only [List.mem_cons, not_or] at hc1 hc2
      have hx1 : ¬ x = ')' := fun h => hc1.1 h.symm
      have hx2 : ¬ x = '\n' := fun h => hc2.1 h.symm
      simp [closeNoNL, hx1, hx2, ih hc1.2 hc2.2]

theorem reFindPc_step_skip (acc : List Char) (x : Char) (xs : List Char)
    (h : pcTok.isPrefixOf (x :: xs) = false) :
    reFindPc acc (x :: xs) = reFindPc (if x = '\n' then [] else x :: acc) xs := by
  simp only [reFindPc, h, Bool.false_eq_true, if_false]

theorem reFindPc_step_found (acc : List Char) (x : Char) (xs code : List Char)
    (hpre : pcTok.isPrefixOf (x :: xs) = true)
    (hcl : closeNoNL ((x :: xs).drop pcTok.length) = some code) :
    reFindPc acc (x :: xs) = some (acc.reverse, code) := by
  simp only [reFindPc, hpre, hcl, if_true]

theorem reFindPc_found (c t : List Char) (hc1 : ')' ∉ c) (hc2 : '\n' ∉ c) :
    ∀ (n acc : List Char), '\n' ∉ n →
      (∀ i, i < n.length →
        pcTok.isPrefixOf ((n ++ (pcTok ++ (c ++ ')' :: t))).drop i) = false) →
      reFindPc acc (n ++ (pcTok ++ (c ++ ')' :: t))) = some (acc.reverse ++ n, c) := by
  intro n
  induction n with
  | nil =>
      intro acc _ _
      have hcl : closeNoNL ((pcTok ++ (c ++ ')' :: t)).drop pcTok.length) = some c := by
        rw [List.drop_left]
        exact closeNoNL_clean c t hc1 hc2
      have hpre : pcTok.isPrefixOf (pcTok ++ (c ++ ')' :: t)) = true :=
        isPrefixOf_append_self _ _
      simp only [List.nil_append, List.append_nil]
      rw [show pcTok ++ (c ++ ')' :: t) =
        '(' :: (['p', 'o', 's', 't', 'c', 'o', 'd', 'e', ':', ' '] ++ (c ++ ')' :: t))
        from rfl]
      rw [show pcTok ++ (c ++ ')' :: t) =
        '(' :: (['p', 'o', 's', 't', 'c', 'o', 'd', 'e', ':', ' '] ++ (c ++ ')' :: t))
        from rfl] at hcl hpre
      exact reFindPc_step_found acc _ _ c hpre hcl
  | cons x xs ih =>
      intro acc hn hfirst
      have h0 : pcTok.isPrefixOf ((x :: xs) ++ (pcTok ++ (c ++ ')' :: t))) = false := by
        have := hfirst 0 (by simp)
        simpa using this
      simp only [List.cons_append] at h0 ⊢
      rw [reFindPc_step_skip _ _ _ h0]
      simp only [List.mem_cons, not_or] at hn
      have hx : ¬ x = '\n' := fun h => hn.1 h.symm
      rw [if_neg hx]
      have hrec := ih (x :: acc) hn.2 (fun i hi => by
        have := hfirst (i + 1) (by simpa using Nat.succ_lt_succ hi)
        simpa using this)
      rw [hrec]
      simp

/-- Claim C8 (amended).  extract_postcode on a string label: when the
pattern does not match, it returns the label stripped of surrounding
whitespace (not unchanged) and None; when the label decomposes as
name ++ "(postcode: " ++ code ++ ")" ++ rest at the first token
occurrence, it returns the stripped name and the code verbatim, with
no whitespace removed from the code; and on an absent (None) label it
raises TypeError instead of returning (None, None). -/
theorem c8_decompose_amended :
    (extract_postcode Val.none = .error .typeError) ∧
    (∀ s : String, pcMatches s.data = false →
      extract_postcode (.str s) = .ok (.str (pyStrip s), Val.none)) ∧
    (∀ n c t : List Char, '\n' ∉ n → ')' ∉ c → '\n' ∉ c →
      (∀ i, i < n.length →
        pcTok.isPrefixOf ((n ++ (pcTok ++ (c ++ ')' :: t))).drop i) = false) →
      extract_postcode (.str (String.mk (n ++ (pcTok ++ (c ++ ')' :: t)))))
        = .ok (.str (pyStrip (String.mk n)), .str (String.mk c))) := by
  refine ⟨rfl, ?_, ?_⟩
  · intro s hm
    have h0 : reFindPc [] s.data = Option.none := (reFindPc_none_iff _ _).mpr hm
    simp [extract_postcode, h0]
  · intro n c t hn hc1 hc2 hfirst
    have h0 := reFindPc_found c t hc1 hc2 n [] hn hfirst
    simp only [List.reverse_nil, List.nil_append] at h0
    simp [extract_postcode, h0]

/-- Witness for c8_decompose_amended at a concrete station label with
and without a postcode suffix. -/
theorem c8_decompose_amended_witness :
    extract_postcode Val.none = .error .typeError ∧
    extract_postcode (.str "Stadhuis") = .ok (.str (pyStrip "Stadhuis"), Val.none) ∧
    extract_postcode
        (.str (String.mk ("Stadhuis ".data ++ (pcTok ++ ("1234 AB".data ++ ')' :: [])))))
      = .ok (.str (pyStrip (String.mk "Stadhuis ".data)), .str (String.mk "1234 AB".data)) :=
  ⟨c8_decompose_amended.1,
   c8_decompose_amended.2.1 "Stadhuis" rfl,
   c8_decompose_amended.2.2 "Stadhuis ".data "1234 AB".data []
     (by decide) (by decide) (by decide) (by decide)⟩

end Kiesraad
